import Mathlib

/-!
Verification development for the NDPI-to-TIF ROI extraction script
(`NDPI_<3_TIF.py`).  The script's pure logic is shallowly embedded here:
strings model Python strings, `List String` models the lines of an index
file, `Raster` models a decoded grayscale image, and the interactions with
the imaging libraries (openslide decoding, Gaussian blur, contour finding)
are parameters of an `Env` record.  Python exceptions are modelled with
`Except` / an explicit error component, and the observable actions of the
batch driver (opening an index file, decoding a channel, printing a
progress line, saving a crop) are recorded as an `Event` trace.
-/

deriving instance DecidableEq for Except

/-! ## Python string primitives (kernel-computable) -/

/-- Errors the script can raise at runtime: `IndexError` from `[...][i]`
lookups, `NameError` from referencing the undefined `THRESHOLD_SIZE`. -/
inductive PyErr where
  | indexError
  | nameError
deriving DecidableEq

/-- Does `hay` contain `needle` as a contiguous sublist?  Models Python's
`needle in hay` on strings (via `toList`). -/
def listContains (needle : List Char) : List Char → Bool
  | [] => List.isPrefixOf needle []
  | c :: t => List.isPrefixOf needle (c :: t) || listContains needle t

/-- Python `needle in hay` (substring containment). -/
def pyIn (needle hay : String) : Bool :=
  listContains needle.toList hay.toList

/-- Python `s.endswith(suffix)`. -/
def pyEndsWith (s suffix : String) : Bool :=
  List.isSuffixOf suffix.toList s.toList

/-- Python `s.startswith(pre)`. -/
def pyStartsWith (s pre : String) : Bool :=
  List.isPrefixOf pre.toList s.toList

/-- Fuel-driven splitter on character lists: cuts at every occurrence of
the (nonempty) separator, scanning left to right.  `acc` holds the current
token reversed.  The fuel is always sufficient when it exceeds the input
length, so the fuel-exhausted branch is unreachable in `pySplit`. -/
def splitListFuel (sep : List Char) : Nat → List Char → List Char → List (List Char)
  | 0, cs, acc => [acc.reverse ++ cs]
  | fuel + 1, cs, acc =>
    match cs with
    | [] => [acc.reverse]
    | c :: cs2 =>
      if List.isPrefixOf sep (c :: cs2) then
        acc.reverse :: splitListFuel sep fuel ((c :: cs2).drop sep.length) []
      else
        splitListFuel sep fuel cs2 (c :: acc)

/-- Python `s.split(sep)` for a nonempty separator. -/
def pySplit (s sep : String) : List String :=
  (splitListFuel sep.toList (s.toList.length + 1) s.toList []).map String.mk

/-- Python `s.rstrip('\n')`: drop every trailing newline character. -/
def pyRstripNl (s : String) : String :=
  String.mk ((s.toList.reverse.dropWhile fun c => c = '\n').reverse)

/-- Index of the last occurrence of `c` in `cs`, if any
(Python `s.rfind(c)` restricted to found/not-found). -/
def lastIdxOf (c : Char) (cs : List Char) : Option Nat :=
  ((cs.enum.filter fun p => p.2 == c).map Prod.fst).getLast?

/-- `os.path.basename` for POSIX paths: everything after the last `/`. -/
def pyBasename (p : String) : String :=
  match lastIdxOf '/' p.toList with
  | none => p
  | some i => String.mk (p.toList.drop (i + 1))

/-- The root part of `os.path.splitext` (CPython `genericpath._splitext`):
cut at the last dot when it lies after the last `/` and the base name is
not made of leading dots only. -/
def splitextRoot (p : String) : String :=
  let cs := p.toList
  let sepIdx : Int := match lastIdxOf '/' cs with | none => -1 | some n => (n : Int)
  let dotIdx : Int := match lastIdxOf '.' cs with | none => -1 | some n => (n : Int)
  if sepIdx < dotIdx then
    if ((cs.take dotIdx.toNat).drop (sepIdx + 1).toNat).any (fun ch => ch != '.') then
      String.mk (cs.take dotIdx.toNat)
    else p
  else p

/-- `os.path.join(a, b)` for POSIX paths. -/
def pyJoin (a b : String) : String :=
  if pyStartsWith b "/" then b
  else if a = "" || pyEndsWith a "/" then a ++ b
  else a ++ "/" ++ b

/-! ## Python truthiness, for the binarization lambda -/

/-- The Python values that can arise from `p > 0 and 255`. -/
inductive PyVal where
  | vbool : Bool → PyVal
  | vint : Int → PyVal
deriving DecidableEq

/-- Python truthiness of those values. -/
def pyTruthy : PyVal → Bool
  | PyVal.vbool b => b
  | PyVal.vint n => n != 0

/-- Python short-circuit `and`: returns the first operand when it is
falsy, otherwise the second. -/
def pyAnd (a b : PyVal) : PyVal :=
  if pyTruthy a then b else a

/-- The binarization lambda `lambda p: p > 0 and 255` from `get_binary`. -/
def point_lambda (p : Nat) : PyVal :=
  pyAnd (PyVal.vbool (decide (p > 0))) (PyVal.vint 255)

/-- PIL `Image.point` coerces the lambda's result to an 8-bit sample:
`False` becomes 0, integers are clipped to `0..255`. -/
def pilPointValue : PyVal → Nat
  | PyVal.vbool b => if b then 1 else 0
  | PyVal.vint n => (min (max n 0) 255).toNat

/-! ## Rasters, crops, bounding boxes -/

/-- A decoded grayscale image: width, height, and an intensity sample per
coordinate (x then y). -/
structure Raster where
  width : Nat
  height : Nat
  pixel : Nat → Nat → Nat

/-- Apply a function to every sample (PIL `Image.point`). -/
def mapPixels (f : Nat → Nat) (im : Raster) : Raster :=
  ⟨im.width, im.height, fun i j => f (im.pixel i j)⟩

/-- PIL `Image.crop((left, upper, right, lower))`: the result has size
`(right - left, lower - upper)` and copies the source sample at the
translated coordinate, with zero fill outside the source extent. -/
def pilCrop (im : Raster) (left upper right lower : Nat) : Raster :=
  ⟨right - left, lower - upper,
   fun i j =>
     if left + i < im.width ∧ upper + j < im.height then
       im.pixel (left + i) (upper + j)
     else 0⟩

/-- An axis-aligned ROI rectangle `(x, y, w, h)`. -/
structure Box where
  x : Nat
  y : Nat
  w : Nat
  h : Nat
deriving DecidableEq

/-- `cv2.boundingRect` of a contour (a nonempty point list): minimal
corner plus inclusive extents. -/
def boundingRect (cnt : List (Nat × Nat)) : Box :=
  match cnt with
  | [] => ⟨0, 0, 0, 0⟩
  | q :: qs =>
    let xs := (q :: qs).map Prod.fst
    let ys := (q :: qs).map Prod.snd
    ⟨xs.foldl min q.1, ys.foldl min q.2,
     xs.foldl max q.1 - xs.foldl min q.1 + 1,
     ys.foldl max q.2 - ys.foldl min q.2 + 1⟩

/-- The crop the export loop takes for a box:
`tiff_image.crop((x, y, x + w, y + h))`. -/
def cropBox (im : Raster) (r : Box) : Raster :=
  pilCrop im r.x r.y (r.x + r.w) (r.y + r.h)

/-! ## The script's functions -/

/-- `get_ndpi_filenames`, on the lines of an `.ndpis` index file (each
line carrying its trailing newline, as Python file iteration yields them).
A line literally ending `.ndpi\n` contributes `line.split("=")[1]` with
trailing newlines stripped; a matching line without `=` raises
`IndexError`, which aborts the whole call. -/
def get_ndpi_filenames : List String → Except PyErr (List String)
  | [] => Except.ok []
  | line :: rest =>
    if pyEndsWith line ".ndpi\n" then
      match (pySplit line "=")[1]? with
      | none => Except.error PyErr.indexError
      | some field =>
        match get_ndpi_filenames rest with
        | Except.error e => Except.error e
        | Except.ok l => Except.ok (pyRstripNl field :: l)
    else get_ndpi_filenames rest

/-- The template lookup
`[ndpi_file for ndpi_file in ndpi_files if NAME in ndpi_file][0]`:
head of the matching sublist, `IndexError` when no channel matches. -/
def findTemplate (ndpi_files : List String) (name : String) : Except PyErr String :=
  match ndpi_files.filter (fun f => pyIn name f) with
  | [] => Except.error PyErr.indexError
  | c :: _ => Except.ok c

/-- The imaging-library interface the script runs against: directory
listing, index-file contents, openslide decoding at the configured level,
PIL `GaussianBlur(25)`, and `cv2.findContours` on a binary raster. -/
structure Env where
  listdir : List String
  fileLines : String → List String
  decode : String → Raster
  blur : Raster → Raster
  findContours : Raster → List (List (Nat × Nat))

/-- The interactive configuration collected at startup. -/
structure Config where
  input_folder : String
  templateName : String
  level : Int

/-- The conditional assignment of `THRESHOLD_SIZE`: defined only for
levels 0 and 1, otherwise the name stays unbound (`none`). -/
def THRESHOLD_SIZE (level : Int) : Option Nat :=
  if level = 0 then some 10000000
  else if level = 1 then some 1000000
  else none

/-- `output_dir = input_folder + "/tif_files"`. -/
def output_dir (cfg : Config) : String :=
  cfg.input_folder ++ "/tif_files"

/-- The `.ndpis` index files found in the input directory. -/
def ndpis_files (env : Env) : List String :=
  env.listdir.filter (fun f => pyEndsWith f ".ndpis")

/-- `ndpi_2_tif`: decode the slide at the configured level as an 8-bit
grayscale raster (openslide `read_region` + `convert('L')`). -/
def ndpi_2_tif (env : Env) (f : String) : Raster :=
  env.decode f

/-- `get_binary`: Gaussian-blur the raster, then apply the point lambda
`p > 0 and 255` to every sample. -/
def get_binary (blur : Raster → Raster) (tiff_image : Raster) : Raster :=
  mapPixels (fun p => pilPointValue (point_lambda p)) (blur tiff_image)

/-- Observable actions of a run. -/
inductive Event where
  | openedIndex : String → Event
  | decoded : String → Event
  | printedROI : Nat → Nat → Nat × Nat → String → Event
  | saved : String → Raster → Event

/-- `get_rois`: decodes `ndpi_files[0]` (NOT its `ndpi_file` argument,
which is ignored), binarizes, finds contours, takes bounding rectangles,
and keeps those whose `sizes[i]` strictly exceeds `THRESHOLD_SIZE`.  When
`THRESHOLD_SIZE` is unbound the comprehension raises `NameError` on its
first element — so an empty contour list still succeeds with `[]`.
Returns the decode events performed alongside the result. -/
def get_rois (env : Env) (ndpi_files : List String) (thr : Option Nat)
    (ndpi_file : String) : List Event × Except PyErr (List Box) :=
  match ndpi_files with
  | [] => ([], Except.error PyErr.indexError)
  | first :: _ =>
    let tiff_image := ndpi_2_tif env first
    let binary_image := get_binary env.blur tiff_image
    let contours := env.findContours binary_image
    let rois := contours.map boundingRect
    let sizes := rois.map fun r => r.w * r.h
    ([Event.decoded first],
      match thr with
      | some t =>
        Except.ok ((rois.enum.filter fun p => decide (sizes.getD p.1 0 > t)).map Prod.snd)
      | none =>
        match rois with
        | [] => Except.ok []
        | _ :: _ => Except.error PyErr.nameError)

/-- The inner crop/save loop `for i, roi in enumerate(rois)`: print the
progress line (1-based ordinal, total, crop size, destination), then save
the crop under `output_filename + "_roi_0" + str(i) + ".tif"`. -/
def exportLoop (tiff_image : Raster) (output_filename : String)
    (number_of_rois : Nat) : Nat → List Box → List Event
  | _, [] => []
  | i, roi :: rest =>
    let cropped_image := cropBox tiff_image roi
    Event.printedROI (i + 1) number_of_rois
        (cropped_image.width, cropped_image.height)
        (output_filename ++ "_roi_0" ++ toString i ++ ".tif")
      :: Event.saved (output_filename ++ "_roi_0" ++ toString i ++ ".tif") cropped_image
      :: exportLoop tiff_image output_filename number_of_rois (i + 1) rest

/-- One iteration of the per-channel loop: files not ending `.ndpi` are
skipped; otherwise build the output base name, decode the channel, and run
the crop/save loop over the shared ROI list. -/
def exportChannel (env : Env) (cfg : Config) (rois : List Box)
    (number_of_rois : Nat) (ndpi_file : String) : List Event :=
  if pyEndsWith ndpi_file ".ndpi" then
    let output_filename := pyJoin (output_dir cfg) (splitextRoot (pyBasename ndpi_file))
    let tiff_image := ndpi_2_tif env ndpi_file
    Event.decoded ndpi_file :: exportLoop tiff_image output_filename number_of_rois 0 rois
  else []

/-- One iteration of the outer loop over `.ndpis` files: parse the index,
look up the template channel, compute the ROIs, then export every channel
with the same ROI list.  An uncaught error stops the iteration and is
reported in the second component. -/
def processSlideSet (env : Env) (cfg : Config) (thr : Option Nat)
    (ndpis_file : String) : List Event × Option PyErr :=
  match get_ndpi_filenames (env.fileLines ndpis_file) with
  | Except.error e => ([Event.openedIndex ndpis_file], some e)
  | Except.ok ndpi_files =>
    match findTemplate ndpi_files cfg.templateName with
    | Except.error e => ([Event.openedIndex ndpis_file], some e)
    | Except.ok tmpl =>
      match get_rois env ndpi_files thr tmpl with
      | (ev, Except.error e) => (Event.openedIndex ndpis_file :: ev, some e)
      | (ev, Except.ok rois) =>
        (Event.openedIndex ndpis_file :: ev
          ++ ndpi_files.flatMap (exportChannel env cfg rois rois.length), none)

/-- The outer loop, halting at the first uncaught error. -/
def runList (env : Env) (cfg : Config) (thr : Option Nat) :
    List String → List Event × Option PyErr
  | [] => ([], none)
  | f :: rest =>
    match processSlideSet env cfg thr f with
    | (ev, some e) => (ev, some e)
    | (ev, none) =>
      match runList env cfg thr rest with
      | (ev2, r) => (ev ++ ev2, r)

/-- The whole run after the interactive prompts: bind `THRESHOLD_SIZE`
from the level and process every `.ndpis` file in the input directory. -/
def runMain (env : Env) (cfg : Config) : List Event × Option PyErr :=
  runList env cfg (THRESHOLD_SIZE cfg.level) (ndpis_files env)

/-! ## Trace projections -/

/-- Channel files decoded during a trace. -/
def decodedFiles (es : List Event) : List String :=
  es.filterMap fun e =>
    match e with
    | Event.decoded f => some f
    | _ => none

/-- Index files opened during a trace. -/
def openedIndexFiles (es : List Event) : List String :=
  es.filterMap fun e =>
    match e with
    | Event.openedIndex f => some f
    | _ => none

/-- Paths of the crops saved during a trace, in order. -/
def savedPaths (es : List Event) : List String :=
  es.filterMap fun e =>
    match e with
    | Event.saved p _ => some p
    | _ => none

/-- `(printed ordinal, printed destination path)` of each progress line. -/
def roiPrints (es : List Event) : List (Nat × String) :=
  es.filterMap fun e =>
    match e with
    | Event.printedROI ord _ _ p => some (ord, p)
    | _ => none

/-! ## Concrete environments used by witnesses and counterexamples -/

/-- A slide set whose template channel (`DAPI`) is the second listed
channel, exposing which file `get_rois` actually decodes. -/
def env1 : Env :=
  { listdir := ["slide.ndpis"]
    fileLines := fun _ => ["Image0=chanA.ndpi\n", "Image1=chanB-DAPI.ndpi\n"]
    decode := fun _ => ⟨10, 10, fun _ _ => 5⟩
    blur := id
    findContours := fun _ => [[(0, 0), (4, 4)]] }

/-- Configuration selecting the `DAPI` template at level 1. -/
def cfg1 : Config := ⟨"/data", "DAPI", 1⟩

/-- A single-contour environment whose bounding box is `(2,3,10,10)`. -/
def env3 : Env :=
  { listdir := []
    fileLines := fun _ => []
    decode := fun _ => ⟨100, 100, fun _ _ => 7⟩
    blur := id
    findContours := fun _ => [[(2, 3), (11, 12)]] }

/-- A two-channel slide set with no channel matching template `GFP`. -/
def env5 : Env :=
  { listdir := ["s.ndpis"]
    fileLines := fun _ => ["Image0=q1.ndpi\n", "Image1=q2-DAPI.ndpi\n"]
    decode := fun _ => ⟨1, 1, fun _ _ => 0⟩
    blur := id
    findContours := fun _ => [] }

/-- Configuration asking for the absent template `GFP` at level 1. -/
def cfg5 : Config := ⟨"/d", "GFP", 1⟩

/-- A one-channel slide set with one nonempty contour. -/
def env6 : Env :=
  { listdir := ["s.ndpis"]
    fileLines := fun _ => ["Image0=c1.ndpi\n"]
    decode := fun _ => ⟨4, 4, fun _ _ => 9⟩
    blur := id
    findContours := fun _ => [[(0, 0)]] }

/-- Configuration with the out-of-range pyramid level 2. -/
def cfg6 : Config := ⟨"/d", "c1", 2⟩

/-- A bare environment for exercising the export loop directly. -/
def env7 : Env :=
  { listdir := []
    fileLines := fun _ => []
    decode := fun _ => ⟨8, 8, fun i j => i + j⟩
    blur := id
    findContours := fun _ => [] }

/-- Configuration used with `env7`. -/
def cfg7 : Config := ⟨"/data", "DAPI", 0⟩

/-- A 4×4 raster with pairwise distinct samples. -/
def im8 : Raster := ⟨4, 4, fun i j => i + 10 * j⟩

/-! ## Claim theorems -/

/-- C4: the binarization step maps every sample of the blurred raster that
is strictly greater than zero to 255 and every other sample to 0 — a fixed
zero-threshold rule (the Python expression `p > 0 and 255` under PIL's
`point`), not a data-dependent threshold. -/
theorem C4_binarization_rule (blur : Raster → Raster) (tiff_image : Raster) (i j : Nat) :
    (get_binary blur tiff_image).pixel i j
      = if 0 < (blur tiff_image).pixel i j then 255 else 0 := by
  simp only [get_binary, mapPixels, point_lambda, pyAnd, pyTruthy]
  by_cases h : 0 < (blur tiff_image).pixel i j
  · simp [h, pilPointValue]
  · simp [h, pilPointValue]

/-- C9: `get_rois` is independent of its `ndpi_file` argument — it always
decodes and segments `ndpi_files[0]`, the first channel listed in the
index file, regardless of which channel was passed in. -/
theorem C9_get_rois_ignores_argument :
    (∀ (env : Env) (files : List String) (thr : Option Nat) (a b : String),
        get_rois env files thr a = get_rois env files thr b) ∧
    (∀ (env : Env) (c : String) (cs : List String) (thr : Option Nat) (f : String),
        (get_rois env (c :: cs) thr f).1 = [Event.decoded c]) :=
  ⟨fun _ _ _ _ _ => rfl, fun _ _ _ _ _ => rfl⟩

/-- C1: contrary to the claim, the ROI list is NOT computed from the
template channel.  In `env1` the template lookup for `DAPI` selects the
second channel `chanB-DAPI.ndpi`, yet `get_rois` applied to that template
decodes `chanA.ndpi` (the first listed channel), and the whole run decodes
`chanA.ndpi` for segmentation. -/
theorem C1_rois_not_from_template :
    findTemplate ["chanA.ndpi", "chanB-DAPI.ndpi"] "DAPI" = Except.ok "chanB-DAPI.ndpi" ∧
    decodedFiles (get_rois env1 ["chanA.ndpi", "chanB-DAPI.ndpi"] (some 1000000)
        "chanB-DAPI.ndpi").1 = ["chanA.ndpi"] ∧
    decodedFiles (runMain env1 cfg1).1 = ["chanA.ndpi", "chanA.ndpi", "chanB-DAPI.ndpi"] ∧
    "chanA.ndpi" ≠ "chanB-DAPI.ndpi" := by
  refine ⟨by decide, by decide, by decide, by decide⟩

/-- C2 counterexample: the resolver does not return "everything after the
first `=`" (on `A=x=y.ndpi\n` it returns `x`, the field between the first
and second `=`); a matching line with no `=` raises `IndexError` instead
of contributing nothing; and a final line without a trailing newline is
skipped even though it ends in `.ndpi` after stripping. -/
theorem C2_counterexample :
    get_ndpi_filenames ["A=x=y.ndpi\n"] = Except.ok ["x"] ∧
    ("x" : String) ≠ "x=y.ndpi" ∧
    get_ndpi_filenames ["bare.ndpi\n"] = Except.error PyErr.indexError ∧
    get_ndpi_filenames ["A=z.ndpi"] = Except.ok [] := by
  refine ⟨by decide, by decide, by decide, by decide⟩

/-- C2 (amended): the resolver returns, in file order, one entry per line
that literally ends `.ndpi\n`; each entry is the second field of splitting
the line on `=` (the text between the first and second `=`), with trailing
newlines stripped.  A matching line with no `=` makes the whole call raise
`IndexError`; lines not ending `.ndpi\n` (including a final line without
its newline) contribute nothing; no matching lines yields `[]`. -/
theorem C2_resolver_characterization (lines : List String) :
    get_ndpi_filenames lines =
      if lines.any (fun l => pyEndsWith l ".ndpi\n" && ((pySplit l "=")[1]?).isNone)
      then Except.error PyErr.indexError
      else Except.ok (lines.filterMap fun l =>
        if pyEndsWith l ".ndpi\n" then ((pySplit l "=")[1]?).map pyRstripNl else none) := by
  induction lines with
  | nil => rfl
  | cons l rest ih =>
    by_cases hl : pyEndsWith l ".ndpi\n"
    · cases hf : (pySplit l "=")[1]? with
      | none =>
        simp [get_ndpi_filenames, hl, hf, List.any_cons]
      | some field =>
        simp only [get_ndpi_filenames, hl, if_true, hf, ih, List.any_cons, List.filterMap_cons,
          Option.isNone_some, Bool.and_false, Bool.false_or, Option.map_some']
        by_cases hr : rest.any (fun l => pyEndsWith l ".ndpi\n" && ((pySplit l "=")[1]?).isNone)
        · simp [hr]
        · simp [hr]
    · simp [get_ndpi_filenames, hl, ih, List.any_cons, List.filterMap_cons]

/-- Helper for C3: membership in the size-filtered ROI list forces the
box's area strictly above the threshold. -/
theorem area_gt_of_mem_sizeFilter {rois0 : List Box} {t : Nat} {r : Box}
    (hr : r ∈ (rois0.enum.filter fun p =>
        decide ((rois0.map fun b => b.w * b.h).getD p.1 0 > t)).map Prod.snd) :
    t < r.w * r.h := by
  obtain ⟨⟨i, b⟩, hmem, hsnd⟩ := List.mem_map.1 hr
  obtain ⟨henum, hp⟩ := List.mem_filter.1 hmem
  have hget : rois0[i]? = some b := List.mk_mem_enum_iff_getElem?.1 henum
  have hsz : (rois0.map fun b => b.w * b.h).getD i 0 = b.w * b.h := by
    simp [List.getD_eq_getElem?_getD, List.getElem?_map, hget]
  rw [hsz] at hp
  have hbr : b = r := hsnd
  exact hbr ▸ of_decide_eq_true hp

/-- C3: every box returned by `get_rois` under an in-scope threshold `t`
has positive width and height and area strictly greater than `t`; in
particular a box of area exactly `t` is never returned (strict `>`). -/
theorem C3_roi_size_invariant (env : Env) (files : List String) (t : Nat)
    (f : String) (rois : List Box)
    (h : (get_rois env files (some t) f).2 = Except.ok rois) :
    (∀ r ∈ rois, 0 < r.w ∧ 0 < r.h ∧ t < r.w * r.h) ∧
    (∀ r : Box, r.w * r.h = t → r ∉ rois) := by
  match files with
  | [] => simp [get_rois] at h
  | first :: restf =>
    simp only [get_rois, Except.ok.injEq] at h
    subst h
    constructor
    · intro r hr
      have ht := area_gt_of_mem_sizeFilter hr
      have hpos : 0 < r.w * r.h := lt_of_le_of_lt (Nat.zero_le t) ht
      have hw : 0 < r.w := by
        rcases Nat.eq_zero_or_pos r.w with h0 | h1
        · rw [h0, Nat.zero_mul] at hpos; exact absurd hpos (lt_irrefl 0)
        · exact h1
      have hh : 0 < r.h := by
        rcases Nat.eq_zero_or_pos r.h with h0 | h1
        · rw [h0, Nat.mul_zero] at hpos; exact absurd hpos (lt_irrefl 0)
        · exact h1
      exact ⟨hw, hh, ht⟩
    · intro r heq hmem
      have := area_gt_of_mem_sizeFilter hmem
      omega

/-- C3 witness: with one contour of bounding box `(2,3,10,10)` and
threshold 50, the surviving box has positive width and area above 50. -/
theorem C3_witness :
    0 < (Box.mk 2 3 10 10).w ∧ 0 < (Box.mk 2 3 10 10).h ∧
    50 < (Box.mk 2 3 10 10).w * (Box.mk 2 3 10 10).h := by
  have h := C3_roi_size_invariant env3 ["c.ndpi"] 50 "c.ndpi" [Box.mk 2 3 10 10] (by decide)
  exact h.1 (Box.mk 2 3 10 10) (List.mem_singleton.2 rfl)

/-- C5: when no resolved channel path contains the template name, the
selection expression raises `IndexError` (the literal form of
`TemplateNotFoundError`) instead of returning a path, and the slide set's
processing stops right there; when some channel matches, the selected path
is the first matching one in resolution order. -/
theorem C5_template_selection (channels : List String) (name : String) :
    ((∀ c ∈ channels, pyIn name c = false) →
        findTemplate channels name = Except.error PyErr.indexError) ∧
    (∀ d ds, channels.filter (fun c => pyIn name c) = d :: ds →
        findTemplate channels name = Except.ok d ∧ pyIn name d = true ∧
        ∃ l1 l2, channels = l1 ++ d :: l2 ∧ ∀ x ∈ l1, pyIn name x = false) ∧
    (∀ (env : Env) (cfg : Config) (thr : Option Nat) (f : String),
        cfg.templateName = name →
        get_ndpi_filenames (env.fileLines f) = Except.ok channels →
        (∀ c ∈ channels, pyIn name c = false) →
        processSlideSet env cfg thr f = ([Event.openedIndex f], some PyErr.indexError)) := by
  refine ⟨?_, ?_, ?_⟩
  · intro hno
    have hfil : channels.filter (fun c => pyIn name c) = [] :=
      List.filter_eq_nil_iff.2 (fun a ha => by simp [hno a ha])
    simp [findTemplate, hfil]
  · intro d ds hfil
    obtain ⟨l1, l2, hch, hl1, hd, -⟩ := List.filter_eq_cons_iff.1 hfil
    refine ⟨by simp [findTemplate, hfil], hd, l1, l2, hch, fun x hx => ?_⟩
    have := hl1 x hx
    simpa using this
  · intro env cfg thr f hname hch hno
    have hfil : channels.filter (fun c => pyIn name c) = [] :=
      List.filter_eq_nil_iff.2 (fun a ha => by simp [hno a ha])
    simp [processSlideSet, hch, findTemplate, hname, hfil]

/-- C5 witness: with channels `q1.ndpi`, `q2-DAPI.ndpi`, the template
`GFP` fails with `IndexError` and aborts the slide set, while the template
`DAPI` selects `q2-DAPI.ndpi`, the first (and only) matching path. -/
theorem C5_witness :
    findTemplate ["q1.ndpi", "q2-DAPI.ndpi"] "GFP" = Except.error PyErr.indexError ∧
    findTemplate ["q1.ndpi", "q2-DAPI.ndpi"] "DAPI" = Except.ok "q2-DAPI.ndpi" ∧
    processSlideSet env5 cfg5 (some 1000000) "s.ndpis"
      = ([Event.openedIndex "s.ndpis"], some PyErr.indexError) := by
  refine ⟨(C5_template_selection ["q1.ndpi", "q2-DAPI.ndpi"] "GFP").1 (by decide),
    ((C5_template_selection ["q1.ndpi", "q2-DAPI.ndpi"] "DAPI").2.1
      "q2-DAPI.ndpi" [] (by decide)).1,
    (C5_template_selection ["q1.ndpi", "q2-DAPI.ndpi"] "GFP").2.2
      env5 cfg5 (some 1000000) "s.ndpis" rfl (by decide) (by decide)⟩

/-- C6 counterexample: with the out-of-range level 2, the run does NOT
abort before any slide is touched: it opens the index file `s.ndpis`,
decodes the channel `c1.ndpi`, and only then fails — with a `NameError`
(undefined `THRESHOLD_SIZE`), not an up-front configuration error. -/
theorem C6_counterexample :
    (runMain env6 cfg6).2 = some PyErr.nameError ∧
    openedIndexFiles (runMain env6 cfg6).1 = ["s.ndpis"] ∧
    decodedFiles (runMain env6 cfg6).1 = ["c1.ndpi"] := by
  refine ⟨by decide, by decide, by decide⟩

/-- C6 (amended): an invalid pyramid level (anything other than 0 or 1)
leaves `THRESHOLD_SIZE` unbound and does not abort the run up front; the
run proceeds to parse the first index file and decode its first listed
channel, and fails with `NameError` only when the ROI size filter of the
first slide set with at least one contour is evaluated.  (Only a
non-integer level input would abort at the `int(...)` prompt itself.) -/
theorem C6_invalid_level_fails_late (env : Env) (cfg : Config)
    (f : String) (rest : List String) (c0 : String) (cs : List String)
    (tmpl : String) (cnt : List (Nat × Nat)) (cnts : List (List (Nat × Nat)))
    (h0 : cfg.level ≠ 0) (h1 : cfg.level ≠ 1)
    (hls : ndpis_files env = f :: rest)
    (hch : get_ndpi_filenames (env.fileLines f) = Except.ok (c0 :: cs))
    (htm : findTemplate (c0 :: cs) cfg.templateName = Except.ok tmpl)
    (hcn : env.findContours (get_binary env.blur (ndpi_2_tif env c0)) = cnt :: cnts) :
    runMain env cfg = ([Event.openedIndex f, Event.decoded c0], some PyErr.nameError) := by
  have hthr : THRESHOLD_SIZE cfg.level = none := by
    simp [THRESHOLD_SIZE, h0, h1]
  have hget : get_rois env (c0 :: cs) none tmpl
      = ([Event.decoded c0], Except.error PyErr.nameError) := by
    simp [get_rois, hcn]
  have hps : processSlideSet env cfg none f
      = ([Event.openedIndex f, Event.decoded c0], some PyErr.nameError) := by
    simp [processSlideSet, hch, htm, hget]
  rw [runMain, hthr, hls, runList, hps]

/-- C6 witness: the concrete level-2 run of `env6` parses `s.ndpis`,
decodes `c1.ndpi`, and stops with `NameError`. -/
theorem C6_witness :
    runMain env6 cfg6
      = ([Event.openedIndex "s.ndpis", Event.decoded "c1.ndpi"], some PyErr.nameError) :=
  C6_invalid_level_fails_late env6 cfg6 "s.ndpis" [] "c1.ndpi" [] "c1.ndpi" [(0, 0)] []
    (by decide) (by decide) (by decide) (by decide) (by decide) rfl

/-- Helper for C7: the saved paths of the crop loop started at index `i`
are the base name suffixed `_roi_0<k>.tif` for `k = i, i+1, ...`. -/
theorem savedPaths_exportLoop (tiff : Raster) (base : String) (n : Nat) :
    ∀ (rois : List Box) (i : Nat),
      savedPaths (exportLoop tiff base n i rois)
        = (List.range' i rois.length).map
            (fun k => base ++ "_roi_0" ++ toString k ++ ".tif") := by
  intro rois
  induction rois with
  | nil => intro i; rfl
  | cons r rs ih =>
    intro i
    simp only [exportLoop, savedPaths, List.filterMap_cons, List.length_cons,
      List.range'_succ, List.map_cons]
    exact congrArg _ (ih (i + 1))

/-- C7: for each surviving box at ordinal `i`, the exported crop's path is
the `tif_files` directory under the input directory, joined with the
channel's basename without extension, then the literal `_roi_0`, the
decimal ordinal `i`, and `.tif` — with no further zero padding. -/
theorem C7_output_naming (env : Env) (cfg : Config) (rois : List Box)
    (n : Nat) (f : String) (hf : pyEndsWith f ".ndpi" = true) :
    savedPaths (exportChannel env cfg rois n f)
      = (List.range rois.length).map (fun i =>
          pyJoin (cfg.input_folder ++ "/tif_files") (splitextRoot (pyBasename f))
            ++ "_roi_0" ++ toString i ++ ".tif") := by
  simp only [exportChannel, hf, if_true, savedPaths, List.filterMap_cons]
  have := savedPaths_exportLoop (ndpi_2_tif env f)
    (pyJoin (output_dir cfg) (splitextRoot (pyBasename f))) n rois 0
  simpa [savedPaths, output_dir, List.range_eq_range'] using this

/-- C7 witness: one box on channel `/data/chanA.ndpi` under input
directory `/data` is saved at the claimed path. -/
theorem C7_witness :
    savedPaths (exportChannel env7 cfg7 [Box.mk 0 0 2 2] 1 "/data/chanA.ndpi")
      = (List.range 1).map (fun i =>
          pyJoin ("/data" ++ "/tif_files") (splitextRoot (pyBasename "/data/chanA.ndpi"))
            ++ "_roi_0" ++ toString i ++ ".tif") :=
  C7_output_naming env7 cfg7 [Box.mk 0 0 2 2] 1 "/data/chanA.ndpi" (by decide)

/-- C8: for a box `(x, y, w, h)` lying inside the raster, the exported
crop `crop((x, y, x+w, y+h))` has dimensions exactly `w × h` and copies
the source samples over `[x, x+w) × [y, y+h)` with no resampling. -/
theorem C8_crop_exactness (im : Raster) (r : Box)
    (hx : r.x + r.w ≤ im.width) (hy : r.y + r.h ≤ im.height) :
    (cropBox im r).width = r.w ∧ (cropBox im r).height = r.h ∧
    ∀ i j, i < r.w → j < r.h →
      (cropBox im r).pixel i j = im.pixel (r.x + i) (r.y + j) := by
  refine ⟨?_, ?_, ?_⟩
  · simp [cropBox, pilCrop]
  · simp [cropBox, pilCrop]
  · intro i j hi hj
    have h1 : r.x + i < im.width := by omega
    have h2 : r.y + j < im.height := by omega
    simp [cropBox, pilCrop, h1, h2]

/-- C8 witness: cropping the 4×4 raster `im8` to box `(1,1,2,2)` gives a
2-wide crop whose sample `(0,1)` is the source sample `(1,2)`. -/
theorem C8_witness :
    (cropBox im8 (Box.mk 1 1 2 2)).width = 2 ∧
    (cropBox im8 (Box.mk 1 1 2 2)).pixel 0 1 = im8.pixel 1 2 := by
  have h := C8_crop_exactness im8 (Box.mk 1 1 2 2) (by decide) (by decide)
  exact ⟨h.1, h.2.2 0 1 (by decide) (by decide)⟩

/-- Helper for C10: each progress line of the crop loop started at `i`
prints the 1-based ordinal `k + 1` next to a destination path whose
suffix carries the 0-based `k`. -/
theorem roiPrints_exportLoop (tiff : Raster) (base : String) (n : Nat) :
    ∀ (rois : List Box) (i : Nat),
      roiPrints (exportLoop tiff base n i rois)
        = (List.range' i rois.length).map
            (fun k => (k + 1, base ++ "_roi_0" ++ toString k ++ ".tif")) := by
  intro rois
  induction rois with
  | nil => intro i; rfl
  | cons r rs ih =>
    intro i
    simp only [exportLoop, roiPrints, List.filterMap_cons, List.length_cons,
      List.range'_succ, List.map_cons]
    exact congrArg _ (ih (i + 1))

/-- C10: for the crop at 0-based position `i`, the console line reports
the 1-based ordinal `i + 1` while the saved file name carries the 0-based
suffix `i` — printed ordinal and filename suffix differ by exactly one. -/
theorem C10_printed_ordinal_off_by_one (env : Env) (cfg : Config) (rois : List Box)
    (n : Nat) (f : String) (hf : pyEndsWith f ".ndpi" = true) :
    roiPrints (exportChannel env cfg rois n f)
      = (List.range rois.length).map (fun i =>
          (i + 1, pyJoin (output_dir cfg) (splitextRoot (pyBasename f))
            ++ "_roi_0" ++ toString i ++ ".tif")) := by
  simp only [exportChannel, hf, if_true, roiPrints, List.filterMap_cons]
  have := roiPrints_exportLoop (ndpi_2_tif env f)
    (pyJoin (output_dir cfg) (splitextRoot (pyBasename f))) n rois 0
  simpa [roiPrints, List.range_eq_range'] using this

/-- C10 witness: with two boxes, the progress lines print ordinals 1, 2
while the file names carry suffixes 0, 1. -/
theorem C10_witness :
    roiPrints (exportChannel env7 cfg7 [Box.mk 0 0 2 2, Box.mk 3 3 1 1] 2 "/data/chanA.ndpi")
      = (List.range 2).map (fun i =>
          (i + 1, pyJoin (output_dir cfg7) (splitextRoot (pyBasename "/data/chanA.ndpi"))
            ++ "_roi_0" ++ toString i ++ ".tif")) :=
  C10_printed_ordinal_off_by_one env7 cfg7 [Box.mk 0 0 2 2, Box.mk 3 3 1 1] 2
    "/data/chanA.ndpi" (by decide)
